import Mathlib

/-!
Verification development for the ZTP bootstrap client
(`client/bootstrap_v2.py`).

The Python module is shallowly embedded below.  Pure control flow is
translated into Lean functions; the I/O collaborators (HTTP transport,
file system, `imp.load_source`, `subprocess.call`, the Command-API CLI,
wall-clock time) are abstracted into explicit environments whose results
drive the same branches the Python code takes.  An exception that the
Python code would raise and not catch is modelled as an `Except.error`
(or an explicit error component) threaded to the caller.  Log lines are
recorded as trace events carrying the exact format strings of the source
(the `datetime` timestamp prefix, which depends on the wall clock, is
elided from the printed form).
-/

namespace ZtpBootstrap

/-- `CONTENT_TYPE_PYTHON` constant (line 70 of the source). -/
def CONTENT_TYPE_PYTHON : String := "text/x-python"

/-- `CONTENT_TYPE_OTHER` constant (line 71 of the source). -/
def CONTENT_TYPE_OTHER : String := "text/plain"

/-- Observable events of one bootstrap run.  `log` records a call of the
module-level `log(msg, error)` helper; `fetchCall` records a call of
`server.get_action` (inside `download_action`); `loadSourceCall` records
the `imp.load_source` invocation and `subprocessCall` the
`subprocess.call` invocation in `execute_action`. -/
inductive Event where
  | log (msg : String) (error : Bool)
  | fetchCall (action : String)
  | loadSourceCall (action : String)
  | subprocessCall (action : String)
  deriving DecidableEq, Repr

/-- The spec's per-action `ActionOutcome`, attached to the branches of
`execute_action`/`main`: `skipped` for the missing-attribute `continue`
branch, `succeeded` for the two success log branches, `failed` for the
three failure log branches (the reason is the logged error text). -/
inductive Outcome where
  | skipped (missing : List String)
  | succeeded
  | failed (reason : String)
  deriving DecidableEq, Repr

/-- One entry of `definition['actions']`: the `requires` list and the
optional lifecycle hook messages.  `requires = none` models a JSON action
object without a `'requires'` key (whose lookup raises `KeyError`). -/
structure ActionDetails where
  requiresAttr : Option (List String)
  onstart : Option String
  onsuccess : Option String
  onfailure : Option String
  deriving DecidableEq, Repr

/-- Environment abstracting the I/O collaborators of the engine:
`attributes` is the key set of the `ATTRIBUTES` dict; `fetch a` is the
result of `download_action`'s server round trip for action `a` (content
type on success, the raised transport error's text on failure);
`loadSource a` is the result of `imp.load_source` on the fetched python
payload (error text when it raises); `exitCode a` is the return code of
`subprocess.call` on the fetched executable payload. -/
structure Env where
  attributes : List String
  fetch : String → Except String String
  loadSource : String → Except String Unit
  exitCode : String → Nat

/-- `', '.join(xs)`. -/
def joinComma : List String → String
  | [] => ""
  | [x] => x
  | x :: y :: xs => x ++ ", " ++ joinComma (y :: xs)

/-- The `log('ACTION %s:%s' % (action, msg))` line emitted for a declared
lifecycle hook (lines 453, 460, 464, 471, 475 of the source). -/
def hookEvents (action : String) (hook : Option String) : List Event :=
  match hook with
  | some msg => [Event.log ("ACTION " ++ action ++ ":" ++ msg) false]
  | none => []

/-- `execute_action(server, action, action_details)` (lines 447-478),
with `download_action` (lines 432-444) inlined as the `fetchCall` event
plus the `env.fetch` result.  Returns the trace of events together with
either the action's outcome or, when `download_action`'s server request
raises, the uncaught exception (there is no `try` around the download,
so it propagates to `main`). -/
def execute_action (env : Env) (action : String) (details : ActionDetails) :
    List Event × Except String Outcome :=
  let pre := [Event.log ("Downloading action " ++ action) false,
              Event.fetchCall action]
  match env.fetch action with
  | Except.error e => (pre, Except.error e)
  | Except.ok content_type =>
    let pre := pre ++ [Event.log ("Executing action " ++ action) false]
                   ++ hookEvents action details.onstart
    if content_type = CONTENT_TYPE_PYTHON then
      match env.loadSource action with
      | Except.ok _ =>
        (pre ++ [Event.loadSourceCall action,
                 Event.log ("Action " ++ action ++ " executed succesfully") false]
             ++ hookEvents action details.onsuccess,
         Except.ok Outcome.succeeded)
      | Except.error err =>
        (pre ++ [Event.loadSourceCall action,
                 Event.log ("Executing " ++ action ++ " failed: " ++ err) true]
             ++ hookEvents action details.onfailure,
         Except.ok (Outcome.failed ("Executing " ++ action ++ " failed: " ++ err)))
    else if content_type = CONTENT_TYPE_OTHER then
      if env.exitCode action ≠ 0 then
        (pre ++ [Event.subprocessCall action,
                 Event.log ("Executing " ++ action ++ " failed: returncode=" ++
                            toString (env.exitCode action)) true]
             ++ hookEvents action details.onfailure,
         Except.ok (Outcome.failed ("Executing " ++ action ++ " failed: returncode=" ++
                                    toString (env.exitCode action))))
      else
        (pre ++ [Event.subprocessCall action,
                 Event.log ("Action " ++ action ++ " executed succesfully") false]
             ++ hookEvents action details.onsuccess,
         Except.ok Outcome.succeeded)
    else
      (pre ++ [Event.log ("Unable to execute action " ++ action ++
                          " - unknown contenty-type " ++ content_type) true],
       Except.ok (Outcome.failed ("Unable to execute action " ++ action ++
                                  " - unknown contenty-type " ++ content_type)))

/-- Result of the action loop of `main`: the event trace, the outcomes of
the actions that reached a terminal state (in processing order), and
`abort = some e` when an uncaught exception `e` escaped the loop (ending
the whole run). -/
structure RunResult where
  events : List Event
  outcomes : List (String × Outcome)
  abort : Option String
  deriving DecidableEq, Repr

/-- The skip log line of `main` (lines 502-505). -/
def skipMsg (action : String) (missing : List String) : String :=
  "Failed to load action " ++ action ++
  " because the following attributes are missing: " ++ joinComma missing

/-- The action loop of `main` (lines 499-507), over the iteration order of
`definition['actions'].iteritems()` given as a list.  An action entry
without a `'requires'` key raises `KeyError` at `details['requires']`
before anything else happens for that action, aborting the run; a
transport error raised inside `execute_action` likewise propagates (no
`try` in the loop) and aborts the run. -/
def runActions (env : Env) : List (String × ActionDetails) → RunResult
  | [] => ⟨[], [], none⟩
  | (action, details) :: rest =>
    match details.requiresAttr with
    | none => ⟨[], [], some "KeyError: requires"⟩
    | some reqs =>
      let missing := reqs.filter (fun x => !(env.attributes.contains x))
      if missing ≠ [] then
        let r := runActions env rest
        ⟨Event.log (skipMsg action missing) true :: r.events,
         (action, Outcome.skipped missing) :: r.outcomes, r.abort⟩
      else
        match execute_action env action details with
        | (evs, Except.error e) => ⟨evs, [], some e⟩
        | (evs, Except.ok o) =>
          let r := runActions env rest
          ⟨evs ++ r.events, (action, o) :: r.outcomes, r.abort⟩

/-- One record of `info['lldpNeighbors']` as read by `Node.neighbors`. -/
structure LldpEntry where
  neighborDevice : String
  neighborPort : String
  port : String
  deriving DecidableEq, Repr

/-- One merged neighbor record (`{'device': .., 'remote_interface': ..}`). -/
structure NeighborRec where
  device : String
  remote_interface : String
  deriving DecidableEq, Repr

/-- Python dict read `d[k]`: `none` models the `KeyError` raise. -/
def lookupPort : List (String × List NeighborRec) → String → Option (List NeighborRec)
  | [], _ => none
  | (k, v) :: rest, key => if k = key then some v else lookupPort rest key

/-- Python dict write `d[k] = v`. -/
def insertPort : List (String × List NeighborRec) → String → List NeighborRec →
    List (String × List NeighborRec)
  | [], key, v => [(key, v)]
  | (k, w) :: rest, key, v =>
    if k = key then (k, v) :: rest else (k, w) :: insertPort rest key v

/-- The `for entry in info['lldpNeighbors']` loop of `Node.neighbors`
(lines 164-171).  The body first evaluates
`result['neighbors'][entry['port']]` — a dict read that raises `KeyError`
when the port key is absent — and only on a truthy (non-empty) stored
list appends, otherwise assigns a fresh singleton list. -/
def neighborsLoop : List (String × List NeighborRec) → List LldpEntry →
    Except String (List (String × List NeighborRec))
  | acc, [] => Except.ok acc
  | acc, e :: rest =>
    match lookupPort acc e.port with
    | none => Except.error ("KeyError: " ++ e.port)
    | some l =>
      if l ≠ [] then
        neighborsLoop (insertPort acc e.port (l ++ [⟨e.neighborDevice, e.neighborPort⟩])) rest
      else
        neighborsLoop (insertPort acc e.port [⟨e.neighborDevice, e.neighborPort⟩]) rest

/-- `Node.neighbors` (lines 160-172): merge the LLDP entries into the
`result['neighbors']` mapping, starting from the empty dict. -/
def neighbors (entries : List LldpEntry) : Except String (List (String × List NeighborRec)) :=
  neighborsLoop [] entries

/-- The spec's `GateError` taxonomy for the management-API gate. -/
inductive GateError where
  | notReady
  deriving DecidableEq, Repr

/-- State of the readiness poll of `Node._enable_api`: total number of
`show management api http-commands | grep running` queries issued, the
final truthiness of `out`, and the list of `time.sleep` durations. -/
structure GatePoll where
  polls : Nat
  out : Bool
  sleeps : List Nat
  deriving DecidableEq, Repr

/-- The `while not out and retries:` loop of `Node._enable_api`
(lines 133-138) — `status n` is the truthiness of the `n`-th status
query's output (query `0` is the one issued before the loop).  Each
iteration logs a waiting notice, sleeps 1 second, decrements `retries`
and re-queries. -/
def enableApiLoop (status : Nat → Bool) : Bool → Nat → Nat → GatePoll
  | true, _, polls => ⟨polls, true, []⟩
  | false, 0, polls => ⟨polls, false, []⟩
  | false, r + 1, polls =>
    let next := enableApiLoop status (status polls) r (polls + 1)
    ⟨next.polls, next.out, 1 :: next.sleeps⟩

/-- `Node._enable_api` readiness polling (lines 130-138): one status
query before the loop, then the bounded loop with `retries = 30`. -/
def enable_api (status : Nat → Bool) : GatePoll :=
  enableApiLoop status (status 0) 30 1

/-- Return value of `Node._enable_api`: the Python function has no
`return` statement, so it returns `None` on every path — it never
produces a `GateError` value. -/
def enable_api_ret (_status : Nat → Bool) : Option GateError :=
  none

/-- The `retries = 3; while not retries:` loop of `XmppClient.connect`
(lines 356-366).  Python's `not retries` is `retries == 0`, so the body
runs only when the counter is zero; on a failed attempt the counter is
decremented (to `-1` from `0`) and the guard is re-tested.  `attempt n`
is the truthiness of the `n`-th `self.client.connect(..)` call.  Returns
the number of connection attempts made and the `time.sleep` durations. -/
def connectLoop (attempt : Nat → Bool) (retries : Int) (tried : Nat)
    (sleeps : List Nat) : Nat × List Nat :=
  if h : retries = 0 then
    if attempt tried then (tried + 1, sleeps)
    else connectLoop attempt (retries - 1) (tried + 1) (sleeps ++ [10])
  else (tried, sleeps)
termination_by (if retries = 0 then 1 else 0)
decreasing_by
  simp_wf
  subst h
  norm_num

/-- `XmppClient.connect` (lines 352-366): run the retry loop starting
from `retries = 3` with no attempts made yet. -/
def xmpp_connect (attempt : Nat → Bool) : Nat × List Nat :=
  connectLoop attempt 3 0 []

/-- A Python exception escaping the logging path. -/
inductive PyError where
  | attributeError (msg : String)
  deriving DecidableEq, Repr

/-- The fields of an `XmppClient` instance that `message`/`log` read. -/
structure XmppState where
  connected : Bool
  rooms : List String
  nick : String
  jid : String
  deriving DecidableEq, Repr

/-- The module-level globals read by `log` (lines 83-84): whether
`syslog_manager` has been assigned, and the value of `xmpp_client`
(`none` models the initial `None`). -/
structure Globals where
  syslogPresent : Bool
  xmpp_client : Option XmppState
  deriving DecidableEq, Repr

/-- Effects of one call into the logging path: syslog records written
(message, error level), messages sent over the chat channel
(room, body), and lines printed to stdout. -/
structure LogEffect where
  syslog : List (String × Bool)
  sends : List (String × String)
  printed : List String
  deriving DecidableEq, Repr

/-- The printed/relayed form of a log line (line 422-424); the
`datetime` timestamp prefix is elided (wall clock). -/
def stamped (msg : String) (error : Bool) : String :=
  "ztp-bootstrap: " ++ (if error then "ERROR: " else "") ++ msg

/-- The module-level `log(msg, error)` helper (lines 414-429).  When
`syslog_manager` is set the message is recorded at error/info level.
Then the code evaluates `xmpp_client.connected` unconditionally: with
`xmpp_client = None` this raises `AttributeError`.  When the client is
connected the stamped line is relayed to every joined room via
`xmpp_client.message` (whose own nested `log` call is elided here — the
relay is recorded as one send per room). -/
def log (g : Globals) (msg : String) (error : Bool) : Except PyError LogEffect :=
  let entries := if g.syslogPresent then [(msg, error)] else []
  match g.xmpp_client with
  | none =>
    Except.error (PyError.attributeError "NoneType object has no attribute connected")
  | some st =>
    if st.connected then
      Except.ok ⟨entries, st.rooms.map (fun r => (r, stamped msg error)),
                 [stamped msg error]⟩
    else
      Except.ok ⟨entries, [], [stamped msg error]⟩

/-- `XmppClient.message` (lines 368-379): when the client is not
connected, log a failure notice (error level) and return without
sending; otherwise log the `says` line and send the body to every
joined room. -/
def message (g : Globals) (st : XmppState) (msg : String) : Except PyError LogEffect :=
  if st.connected = false then
    log g ("XmppClient: Failed to send mesage because " ++ st.jid ++
           " is not connected to server") true
  else
    match log g ("XmppClient: " ++ st.jid ++ " says " ++ st.nick) false with
    | Except.error e => Except.error e
    | Except.ok eff =>
      Except.ok ⟨eff.syslog, eff.sends ++ st.rooms.map (fun r => (r, msg)), eff.printed⟩

/-- Concrete environment used by the witnesses: attribute map with the
single key `x`; action `afail`'s fetch raises a transport error, `apy`
fetches as python and its payload raises on load, `abin` fetches as
plain text, and every other action fetches with an unrecognized content
type. -/
def envW : Env where
  attributes := ["x"]
  fetch := fun a =>
    if a = "afail" then Except.error "connection refused"
    else if a = "apy" then Except.ok "text/x-python"
    else if a = "abin" then Except.ok "text/plain"
    else Except.ok "application/json"
  loadSource := fun a =>
    if a = "apy" then Except.error "NameError: name x is not defined"
    else Except.ok ()
  exitCode := fun _ => 0

/-! ### Step equations for the action loop -/

/-- `main` loop step: an action entry without a `'requires'` key makes
`details['requires']` raise `KeyError`, aborting the run at once. -/
theorem runActions_cons_noreq (env : Env) (a : String) (d : ActionDetails)
    (rest : List (String × ActionDetails)) (hreq : d.requiresAttr = none) :
    runActions env ((a, d) :: rest) = ⟨[], [], some "KeyError: requires"⟩ := by
  simp only [runActions, hreq]

/-- `main` loop step: a non-empty missing-attribute list takes the
`continue` branch — one error log, a `skipped` outcome, and the rest of
the loop unchanged. -/
theorem runActions_cons_skip (env : Env) (a : String) (d : ActionDetails)
    (rest : List (String × ActionDetails)) (reqs : List String)
    (hreq : d.requiresAttr = some reqs)
    (hm : reqs.filter (fun y => !env.attributes.contains y) ≠ []) :
    runActions env ((a, d) :: rest) =
      ⟨Event.log (skipMsg a (reqs.filter (fun y => !env.attributes.contains y))) true ::
         (runActions env rest).events,
       (a, Outcome.skipped (reqs.filter (fun y => !env.attributes.contains y))) ::
         (runActions env rest).outcomes,
       (runActions env rest).abort⟩ := by
  simp only [runActions, hreq]
  rw [if_pos hm]

/-- `main` loop step: an uncaught exception from `execute_action`
(the transport error of the download) ends the loop. -/
theorem runActions_cons_exec_err (env : Env) (a : String) (d : ActionDetails)
    (rest : List (String × ActionDetails)) (reqs : List String)
    (evs : List Event) (e : String)
    (hreq : d.requiresAttr = some reqs)
    (hm : reqs.filter (fun y => !env.attributes.contains y) = [])
    (hex : execute_action env a d = (evs, Except.error e)) :
    runActions env ((a, d) :: rest) = ⟨evs, [], some e⟩ := by
  simp only [runActions, hreq]
  rw [if_neg (not_not_intro hm), hex]

/-- `main` loop step: an eligible action whose `execute_action` returns
normally contributes its trace and outcome and the loop continues. -/
theorem runActions_cons_exec_ok (env : Env) (a : String) (d : ActionDetails)
    (rest : List (String × ActionDetails)) (reqs : List String)
    (evs : List Event) (o : Outcome)
    (hreq : d.requiresAttr = some reqs)
    (hm : reqs.filter (fun y => !env.attributes.contains y) = [])
    (hex : execute_action env a d = (evs, Except.ok o)) :
    runActions env ((a, d) :: rest) =
      ⟨evs ++ (runActions env rest).events,
       (a, o) :: (runActions env rest).outcomes,
       (runActions env rest).abort⟩ := by
  simp only [runActions, hreq]
  rw [if_neg (not_not_intro hm), hex]

/-! ### Trace lemmas -/

/-- Lifecycle-hook lines are log events, never fetch calls. -/
theorem fetchCall_not_mem_hookEvents (a x : String) (h : Option String) :
    Event.fetchCall x ∉ hookEvents a h := by
  cases h <;> simp [hookEvents]

/-- `execute_action` only records a fetch call for its own action. -/
theorem fetchCall_mem_execute (env : Env) (a : String) (d : ActionDetails) (x : String)
    (hmem : Event.fetchCall x ∈ (execute_action env a d).1) : x = a := by
  unfold execute_action at hmem
  repeat' split at hmem
  all_goals simp_all [fetchCall_not_mem_hookEvents]

/-- A fetch call recorded by the action loop belongs to an action entry
of the processed list. -/
theorem fetchCall_mem_run (env : Env) (x : String) :
    ∀ l : List (String × ActionDetails),
      Event.fetchCall x ∈ (runActions env l).events → ∃ d, (x, d) ∈ l := by
  intro l
  induction l with
  | nil => simp [runActions]
  | cons p rest ih =>
    obtain ⟨a, d⟩ := p
    intro hmem
    cases hra : d.requiresAttr with
    | none =>
      rw [runActions_cons_noreq env a d rest hra] at hmem
      simp at hmem
    | some reqs =>
      by_cases hm : List.filter (fun y => !env.attributes.contains y) reqs = []
      · rcases hex : execute_action env a d with ⟨evs, res⟩
        cases res with
        | error e =>
          rw [runActions_cons_exec_err env a d rest reqs evs e hra hm hex] at hmem
          have hxa : x = a := fetchCall_mem_execute env a d x (by rw [hex]; exact hmem)
          subst hxa
          exact ⟨d, List.mem_cons_self _ _⟩
        | ok o =>
          rw [runActions_cons_exec_ok env a d rest reqs evs o hra hm hex] at hmem
          simp at hmem
          rcases hmem with h | h
          · have hxa : x = a := fetchCall_mem_execute env a d x (by rw [hex]; exact h)
            subst hxa
            exact ⟨d, List.mem_cons_self _ _⟩
          · obtain ⟨d', hd⟩ := ih h
            exact ⟨d', List.mem_cons_of_mem _ hd⟩
      · rw [runActions_cons_skip env a d rest reqs hra hm] at hmem
        simp at hmem
        obtain ⟨d', hd⟩ := ih hmem
        exact ⟨d', List.mem_cons_of_mem _ hd⟩

/-! ### Claims -/

/-- C1: an action with a required attribute missing from the attribute
map gets outcome `Skipped`, the loop emits one error log naming the
missing attributes, no fetch call ever occurs for that action, and the
remaining actions are processed exactly as before. -/
theorem c1_missing_attr_skipped_not_fetched (env : Env) (a : String)
    (d : ActionDetails) (rest : List (String × ActionDetails)) (reqs : List String)
    (hreq : d.requiresAttr = some reqs)
    (hmiss : reqs.filter (fun y => !env.attributes.contains y) ≠ [])
    (hnodup : ∀ d', (a, d') ∉ rest) :
    (runActions env ((a, d) :: rest)).outcomes =
      (a, Outcome.skipped (reqs.filter (fun y => !env.attributes.contains y))) ::
        (runActions env rest).outcomes ∧
    (runActions env ((a, d) :: rest)).events =
      Event.log (skipMsg a (reqs.filter (fun y => !env.attributes.contains y))) true ::
        (runActions env rest).events ∧
    Event.fetchCall a ∉ (runActions env ((a, d) :: rest)).events ∧
    (runActions env ((a, d) :: rest)).abort = (runActions env rest).abort := by
  have hstep := runActions_cons_skip env a d rest reqs hreq hmiss
  refine ⟨by rw [hstep], by rw [hstep], ?_, by rw [hstep]⟩
  rw [hstep]
  simp only [RunResult.events]
  intro hmem
  rcases List.mem_cons.mp hmem with h | h
  · cases h
  · obtain ⟨d', hd⟩ := fetchCall_mem_run env a rest h
    exact hnodup d' hd

/-- C1 witness: `envW` has attribute `x` only; an action requiring `y`
is skipped, reported, and never fetched. -/
theorem c1_witness :
    (runActions envW [("a2", ⟨some ["y"], none, none, none⟩)]).outcomes =
      [("a2", Outcome.skipped ["y"])] ∧
    (runActions envW [("a2", ⟨some ["y"], none, none, none⟩)]).events =
      [Event.log (skipMsg "a2" ["y"]) true] ∧
    Event.fetchCall "a2" ∉ (runActions envW [("a2", ⟨some ["y"], none, none, none⟩)]).events ∧
    (runActions envW [("a2", ⟨some ["y"], none, none, none⟩)]).abort = none :=
  c1_missing_attr_skipped_not_fetched envW "a2" ⟨some ["y"], none, none, none⟩ [] ["y"]
    rfl (by decide) (by simp)

/-- `execute_action` step: a transport error of the download propagates
(no `try` surrounds `download_action`), after the download log and the
fetch call were recorded. -/
theorem execute_action_fetch_err (env : Env) (a : String) (d : ActionDetails) (e : String)
    (hf : env.fetch a = Except.error e) :
    execute_action env a d =
      ([Event.log ("Downloading action " ++ a) false, Event.fetchCall a],
       Except.error e) := by
  simp only [execute_action, hf]

/-- `execute_action` step: once the download succeeded, every branch of
the content-type dispatch returns normally (no exception escapes). -/
theorem execute_action_fetch_ok (env : Env) (a : String) (d : ActionDetails) (ct : String)
    (hf : env.fetch a = Except.ok ct) :
    ∃ o, (execute_action env a d).2 = Except.ok o := by
  simp only [execute_action, hf]
  repeat' split
  all_goals exact ⟨_, rfl⟩

/-- C2 (amended): for an eligible action, failures *after* a successful
download are confined — the action gets a terminal outcome and the rest
of the loop runs unchanged; but a download (fetch) failure propagates
uncaught and aborts the run, recording no outcome. -/
theorem c2_exec_confined_fetch_aborts (env : Env) (a : String) (d : ActionDetails)
    (rest : List (String × ActionDetails)) (reqs : List String)
    (hreq : d.requiresAttr = some reqs)
    (hm : reqs.filter (fun y => !env.attributes.contains y) = []) :
    (∀ ct, env.fetch a = Except.ok ct →
      ∃ o, (execute_action env a d).2 = Except.ok o ∧
        runActions env ((a, d) :: rest) =
          ⟨(execute_action env a d).1 ++ (runActions env rest).events,
           (a, o) :: (runActions env rest).outcomes,
           (runActions env rest).abort⟩) ∧
    (∀ e, env.fetch a = Except.error e →
      runActions env ((a, d) :: rest) =
        ⟨(execute_action env a d).1, [], some e⟩) := by
  constructor
  · intro ct hf
    obtain ⟨o, ho⟩ := execute_action_fetch_ok env a d ct hf
    refine ⟨o, ho, ?_⟩
    rcases hpair : execute_action env a d with ⟨evs, res⟩
    have hres : res = Except.ok o := by rw [hpair] at ho; exact ho
    subst hres
    simp only [hpair]
    exact runActions_cons_exec_ok env a d rest reqs evs o hreq hm hpair
  · intro e hf
    have hex := execute_action_fetch_err env a d e hf
    simp only [hex]
    exact runActions_cons_exec_err env a d rest reqs _ e hreq hm hex

/-- C2 counterexample: in `envW` the fetch of `afail` raises; a run over
`[afail, anext]` aborts with no recorded outcome for either action and
`anext` is never fetched — refuting the claim that a fetch failure is
confined to its action and later actions are still attempted. -/
theorem c2_counterexample :
    (runActions envW [("afail", ⟨some [], none, none, none⟩),
                      ("anext", ⟨some [], none, none, none⟩)]).outcomes = [] ∧
    (runActions envW [("afail", ⟨some [], none, none, none⟩),
                      ("anext", ⟨some [], none, none, none⟩)]).abort =
      some "connection refused" ∧
    Event.fetchCall "anext" ∉
      (runActions envW [("afail", ⟨some [], none, none, none⟩),
                        ("anext", ⟨some [], none, none, none⟩)]).events := by
  decide

/-- C2 witness: the amended statement at `envW` and action `apy`. -/
theorem c2_witness :
    (∀ ct, envW.fetch "apy" = Except.ok ct →
      ∃ o, (execute_action envW "apy" ⟨some [], none, none, none⟩).2 = Except.ok o ∧
        runActions envW [("apy", ⟨some [], none, none, none⟩)] =
          ⟨(execute_action envW "apy" ⟨some [], none, none, none⟩).1 ++
             (runActions envW []).events,
           ("apy", o) :: (runActions envW []).outcomes,
           (runActions envW []).abort⟩) ∧
    (∀ e, envW.fetch "apy" = Except.error e →
      runActions envW [("apy", ⟨some [], none, none, none⟩)] =
        ⟨(execute_action envW "apy" ⟨some [], none, none, none⟩).1, [], some e⟩) :=
  c2_exec_confined_fetch_aborts envW "apy" ⟨some [], none, none, none⟩ [] [] rfl rfl

/-- C3 (code defect): `Node.neighbors` reads
`result['neighbors'][entry['port']]` before the port key can ever have
been stored, so on any non-empty LLDP neighbor list the very first entry
raises `KeyError` — there is no insert-or-append and no `QueryError`. -/
theorem c3_neighbors_first_entry_keyerror (e : LldpEntry) (es : List LldpEntry) :
    neighbors (e :: es) = Except.error ("KeyError: " ++ e.port) := rfl

/-- C4 (code defect): `XmppClient.connect` initializes `retries = 3` and
guards its loop with `while not retries:`, which is false, so the client
makes zero connection attempts and never sleeps. -/
theorem c4_connect_never_attempts (attempt : Nat → Bool) :
    xmpp_connect attempt = (0, []) := by
  unfold xmpp_connect
  rw [connectLoop]
  norm_num

/-- C7 (code defect): the module-level `log` evaluates
`xmpp_client.connected` without a `None` guard, so during the
pre-configuration phase (messenger not yet constructed,
`xmpp_client = None`) every log call raises `AttributeError`. -/
theorem c7_log_raises_without_messenger :
    log ⟨true, none⟩ "SyslogManager: adding localhost handler" false =
      Except.error (PyError.attributeError "NoneType object has no attribute connected") :=
  rfl

/-- C10: an action entry without a `'requires'` key makes the
eligibility check raise an uncaught `KeyError`, aborting the whole run
with no outcome recorded and no action (that one or any later one)
processed. -/
theorem c10_missing_requires_aborts (env : Env) (a : String) (d : ActionDetails)
    (rest : List (String × ActionDetails)) (h : d.requiresAttr = none) :
    runActions env ((a, d) :: rest) = ⟨[], [], some "KeyError: requires"⟩ :=
  runActions_cons_noreq env a d rest h

/-- C10 witness: a one-action definition whose entry lacks `requires`
aborts immediately. -/
theorem c10_witness :
    runActions envW [("a1", ⟨none, none, none, none⟩)] =
      ⟨[], [], some "KeyError: requires"⟩ :=
  c10_missing_requires_aborts envW "a1" ⟨none, none, none, none⟩ [] rfl

/-- The readiness loop issues at most `retries` further queries. -/
theorem enableApiLoop_polls_le (status : Nat → Bool) :
    ∀ (r : Nat) (out : Bool) (p : Nat), (enableApiLoop status out r p).polls ≤ p + r := by
  intro r
  induction r with
  | zero => intro out p; cases out <;> simp [enableApiLoop]
  | succ n ih =>
    intro out p
    cases out with
    | true => simp [enableApiLoop]
    | false =>
      have := ih (status p) (p + 1)
      simp only [enableApiLoop]
      omega

/-- The readiness loop sleeps at most `retries` times, 1 second each. -/
theorem enableApiLoop_sleeps (status : Nat → Bool) :
    ∀ (r : Nat) (out : Bool) (p : Nat),
      (enableApiLoop status out r p).sleeps.length ≤ r ∧
      ∀ t ∈ (enableApiLoop status out r p).sleeps, t = 1 := by
  intro r
  induction r with
  | zero => intro out p; cases out <;> simp [enableApiLoop]
  | succ n ih =>
    intro out p
    cases out with
    | true => simp [enableApiLoop]
    | false =>
      obtain ⟨h1, h2⟩ := ih (status p) (p + 1)
      refine ⟨?_, ?_⟩
      · simp only [enableApiLoop, List.length_cons]
        omega
      · simp only [enableApiLoop, List.mem_cons]
        rintro t (rfl | ht)
        · rfl
        · exact h2 t ht

/-- When the status query never turns truthy, the loop uses its whole
budget and exits with `out` still falsy. -/
theorem enableApiLoop_allfalse (status : Nat → Bool) (hs : ∀ n, status n = false) :
    ∀ (r : Nat) (p : Nat),
      enableApiLoop status false r p = ⟨p + r, false, List.replicate r 1⟩ := by
  intro r
  induction r with
  | zero => intro p; simp [enableApiLoop]
  | succ n ih =>
    intro p
    simp only [enableApiLoop, hs, ih (p + 1), List.replicate_succ]
    have : p + 1 + n = p + (n + 1) := by omega
    rw [this]

/-- C5 (amended): the readiness poll of `Node._enable_api` is bounded —
one query before the loop plus at most 30 retry queries (31 total), each
retry preceded by a 1-second sleep; with a never-ready API it exhausts
exactly that budget and stops; and on every path the function returns
`None`, never a `GateError` value. -/
theorem c5_bounded_poll_no_notready (status : Nat → Bool) :
    (enable_api status).polls ≤ 31 ∧
    (enable_api status).sleeps.length ≤ 30 ∧
    (∀ t ∈ (enable_api status).sleeps, t = 1) ∧
    ((∀ n, status n = false) →
      enable_api status = ⟨31, false, List.replicate 30 1⟩) ∧
    enable_api_ret status = none := by
  refine ⟨?_, (enableApiLoop_sleeps status 30 (status 0) 1).1,
          (enableApiLoop_sleeps status 30 (status 0) 1).2, ?_, rfl⟩
  · have := enableApiLoop_polls_le status 30 (status 0) 1
    simpa [enable_api] using this
  · intro hs
    have h0 := hs 0
    simp only [enable_api, h0]
    exact enableApiLoop_allfalse status hs 30 1

/-- C5 counterexample: with a never-ready API the poll exhausts its
budget, yet `_enable_api` yields no `GateError::NotReady` — its return
value is `None` — refuting the claim's "on exhaustion it returns a
distinguishable GateError::NotReady". -/
theorem c5_counterexample :
    enable_api_ret (fun _ => false) ≠ some GateError.notReady ∧
    (enable_api (fun _ => false)).out = false ∧
    (enable_api (fun _ => false)).polls = 31 := by
  refine ⟨by simp [enable_api_ret], ?_, ?_⟩ <;> decide

/-- C5 witness: the amended statement evaluated on the never-ready
status oracle. -/
theorem c5_witness :
    (enable_api (fun _ => false)).polls ≤ 31 ∧
    enable_api (fun _ => false) = ⟨31, false, List.replicate 30 1⟩ :=
  ⟨(c5_bounded_poll_no_notready (fun _ => false)).1,
   ((c5_bounded_poll_no_notready (fun _ => false)).2.2.2.1) (fun _ => rfl)⟩

/-- C6: `XmppClient.message` on a disconnected client (with the global
`xmpp_client` pointing at it) never raises, sends nothing over the chat
channel, and records exactly one error-level log-sink entry reporting
the failure. -/
theorem c6_emit_disconnected_noop (g : Globals) (st : XmppState) (msg : String)
    (hx : g.xmpp_client = some st) (hc : st.connected = false)
    (hs : g.syslogPresent = true) :
    message g st msg =
      Except.ok ⟨[("XmppClient: Failed to send mesage because " ++ st.jid ++
                   " is not connected to server", true)],
                 [],
                 [stamped ("XmppClient: Failed to send mesage because " ++ st.jid ++
                           " is not connected to server") true]⟩ := by
  simp [message, log, hx, hc, hs]

/-- C6 witness: a concrete disconnected client. -/
theorem c6_witness :
    message ⟨true, some ⟨false, ["room1"], "nick1", "user@dom"⟩⟩
        ⟨false, ["room1"], "nick1", "user@dom"⟩ "hello" =
      Except.ok ⟨[("XmppClient: Failed to send mesage because " ++ "user@dom" ++
                   " is not connected to server", true)],
                 [],
                 [stamped ("XmppClient: Failed to send mesage because " ++ "user@dom" ++
                           " is not connected to server") true]⟩ :=
  c6_emit_disconnected_noop ⟨true, some ⟨false, ["room1"], "nick1", "user@dom"⟩⟩
    ⟨false, ["room1"], "nick1", "user@dom"⟩ "hello" rfl rfl rfl

/-- Two log lines with distinct literal prefixes differ, whatever the
appended suffixes are (first character 'D' vs 'A'). -/
theorem downloading_ne_hook (x y z : String) :
    ("Downloading action " ++ x) ≠ ("ACTION " ++ y ++ ":" ++ z) := by
  intro he
  have h2 : ("Downloading action " ++ x).data.head? =
      ("ACTION " ++ y ++ ":" ++ z).data.head? := by rw [he]
  have hL : ("Downloading action " ++ x).data.head? = some 'D' := rfl
  have hR : ("ACTION " ++ y ++ ":" ++ z).data.head? = some 'A' := rfl
  rw [hL, hR] at h2
  exact absurd h2 (by decide)

/-- Same as `downloading_ne_hook` for the execution log line ('E'). -/
theorem executing_ne_hook (x y z : String) :
    ("Executing action " ++ x) ≠ ("ACTION " ++ y ++ ":" ++ z) := by
  intro he
  have h2 : ("Executing action " ++ x).data.head? =
      ("ACTION " ++ y ++ ":" ++ z).data.head? := by rw [he]
  have hL : ("Executing action " ++ x).data.head? = some 'E' := rfl
  have hR : ("ACTION " ++ y ++ ":" ++ z).data.head? = some 'A' := rfl
  rw [hL, hR] at h2
  exact absurd h2 (by decide)

/-- Hook lines of the same action with different hook messages differ
(left-cancellation of the shared prefix). -/
theorem hook_ne_hook (y m h : String) (hne : m ≠ h) :
    ("ACTION " ++ y ++ ":" ++ m) ≠ ("ACTION " ++ y ++ ":" ++ h) := by
  intro he
  have h2 := congrArg String.data he
  simp only [String.data_append] at h2
  exact hne (String.ext (List.append_cancel_left h2))

/-- C8: a python action whose payload raises during `imp.load_source`
is caught — `execute_action` returns normally with outcome
`Failed(reason)`, the reason contains the underlying error text, and the
declared on-failure hook line is logged exactly once (the on-start hook,
if any, must carry a different message, since the source renders every
hook through the same `ACTION name:msg` log line). -/
theorem c8_python_error_confined_hook_once (env : Env) (a err hookMsg : String)
    (d : ActionDetails)
    (hf : env.fetch a = Except.ok CONTENT_TYPE_PYTHON)
    (hl : env.loadSource a = Except.error err)
    (hh : d.onfailure = some hookMsg)
    (hso : d.onstart ≠ some hookMsg) :
    (execute_action env a d).2 =
      Except.ok (Outcome.failed ("Executing " ++ a ++ " failed: " ++ err)) ∧
    (∃ pre post, ("Executing " ++ a ++ " failed: " ++ err) = pre ++ err ++ post) ∧
    List.count (Event.log ("ACTION " ++ a ++ ":" ++ hookMsg) false)
      (execute_action env a d).1 = 1 := by
  refine ⟨?_, ⟨"Executing " ++ a ++ " failed: ", "", ?_⟩, ?_⟩
  · simp [execute_action, hf, hl]
  · rw [String.append_empty]
  · cases hos : d.onstart with
    | none =>
      simp [execute_action, hf, hl, hh, hos, hookEvents, List.count_cons, List.count_append,
            downloading_ne_hook, executing_ne_hook]
    | some m =>
      have hm : m ≠ hookMsg := by
        intro h
        exact hso (by rw [hos, h])
      simp [execute_action, hf, hl, hh, hos, hookEvents, List.count_cons, List.count_append,
            downloading_ne_hook, executing_ne_hook, hook_ne_hook a m hookMsg hm]

/-- C8 witness: `apy` in `envW` fetches as python and its payload raises
`NameError`; the declared on-failure hook fires once. -/
theorem c8_witness :
    (execute_action envW "apy" ⟨some [], none, none, some "notify-admin"⟩).2 =
      Except.ok (Outcome.failed ("Executing " ++ "apy" ++ " failed: " ++
                                 "NameError: name x is not defined")) ∧
    (∃ pre post, ("Executing " ++ "apy" ++ " failed: " ++
                  "NameError: name x is not defined") =
        pre ++ "NameError: name x is not defined" ++ post) ∧
    List.count (Event.log ("ACTION " ++ "apy" ++ ":" ++ "notify-admin") false)
      (execute_action envW "apy" ⟨some [], none, none, some "notify-admin"⟩).1 = 1 :=
  c8_python_error_confined_hook_once envW "apy" "NameError: name x is not defined"
    "notify-admin" ⟨some [], none, none, some "notify-admin"⟩ rfl rfl rfl (by decide)

/-- Lifecycle-hook lines are log events, never `imp.load_source` calls. -/
theorem loadSourceCall_not_mem_hookEvents (a x : String) (h : Option String) :
    Event.loadSourceCall x ∉ hookEvents a h := by
  cases h <;> simp [hookEvents]

/-- Lifecycle-hook lines are log events, never `subprocess.call` calls. -/
theorem subprocessCall_not_mem_hookEvents (a x : String) (h : Option String) :
    Event.subprocessCall x ∉ hookEvents a h := by
  cases h <;> simp [hookEvents]

/-- C9: the content kind is derived from the response content type —
`text/x-python` runs in-process via `imp.load_source` (never
`subprocess`), `text/plain` is invoked as an executable via
`subprocess.call` with the exit code deciding success, and any other
content type yields a `Failed(unknown content type)` outcome with no
execution attempt and a normal return (not fatal to the run). -/
theorem c9_content_kind_dispatch (env : Env) (a : String) (d : ActionDetails) (ct : String)
    (hf : env.fetch a = Except.ok ct) :
    (ct = CONTENT_TYPE_PYTHON →
      Event.loadSourceCall a ∈ (execute_action env a d).1 ∧
      Event.subprocessCall a ∉ (execute_action env a d).1) ∧
    (ct = CONTENT_TYPE_OTHER →
      Event.subprocessCall a ∈ (execute_action env a d).1 ∧
      Event.loadSourceCall a ∉ (execute_action env a d).1 ∧
      (env.exitCode a ≠ 0 →
        (execute_action env a d).2 =
          Except.ok (Outcome.failed ("Executing " ++ a ++ " failed: returncode=" ++
                                     toString (env.exitCode a)))) ∧
      (env.exitCode a = 0 →
        (execute_action env a d).2 = Except.ok Outcome.succeeded)) ∧
    (ct ≠ CONTENT_TYPE_PYTHON → ct ≠ CONTENT_TYPE_OTHER →
      (execute_action env a d).2 =
        Except.ok (Outcome.failed ("Unable to execute action " ++ a ++
                                   " - unknown contenty-type " ++ ct)) ∧
      Event.loadSourceCall a ∉ (execute_action env a d).1 ∧
      Event.subprocessCall a ∉ (execute_action env a d).1) := by
  refine ⟨?_, ?_, ?_⟩
  · intro hct
    subst hct
    cases hls : env.loadSource a <;>
      simp [execute_action, hf, hls, subprocessCall_not_mem_hookEvents]
  · intro hct
    subst hct
    by_cases hrc : env.exitCode a = 0 <;>
      simp [execute_action, hf, hrc, CONTENT_TYPE_OTHER, CONTENT_TYPE_PYTHON,
            loadSourceCall_not_mem_hookEvents]
  · intro h1 h2
    simp [execute_action, hf, h1, h2, loadSourceCall_not_mem_hookEvents,
          subprocessCall_not_mem_hookEvents]

/-- C9 witness: in `envW`, `apy` (python) goes through `imp.load_source`,
`abin` (plain) through `subprocess.call`, and `aother`
(`application/json`) fails as unknown with no execution attempt. -/
theorem c9_witness :
    Event.loadSourceCall "apy" ∈
      (execute_action envW "apy" ⟨some [], none, none, none⟩).1 ∧
    Event.subprocessCall "abin" ∈
      (execute_action envW "abin" ⟨some [], none, none, none⟩).1 ∧
    (execute_action envW "aother" ⟨some [], none, none, none⟩).2 =
      Except.ok (Outcome.failed ("Unable to execute action " ++ "aother" ++
                                 " - unknown contenty-type " ++ "application/json")) ∧
    Event.loadSourceCall "aother" ∉
      (execute_action envW "aother" ⟨some [], none, none, none⟩).1 ∧
    Event.subprocessCall "aother" ∉
      (execute_action envW "aother" ⟨some [], none, none, none⟩).1 :=
  ⟨((c9_content_kind_dispatch envW "apy" ⟨some [], none, none, none⟩
      "text/x-python" rfl).1 rfl).1,
   ((c9_content_kind_dispatch envW "abin" ⟨some [], none, none, none⟩
      "text/plain" rfl).2.1 rfl).1,
   ((c9_content_kind_dispatch envW "aother" ⟨some [], none, none, none⟩
      "application/json" rfl).2.2 (by decide) (by decide)).1,
   ((c9_content_kind_dispatch envW "aother" ⟨some [], none, none, none⟩
      "application/json" rfl).2.2 (by decide) (by decide)).2.1,
   ((c9_content_kind_dispatch envW "aother" ⟨some [], none, none, none⟩
      "application/json" rfl).2.2 (by decide) (by decide)).2.2⟩

end ZtpBootstrap
